import Mathlib

/-!
Verification of the Luna reference server: a shallow embedding of the
stateless Next.js API handlers (ephemeral-key issuance, ICE-server proxy,
WebRTC offer relays, Plivo config-token proxy, Plivo answer document,
Plivo outbound call) and proofs about their request/response behaviour.

Each handler is modelled as a pure function from the process environment,
the HTTP method, the parsed request body and an oracle describing the
behaviour of the single outbound call (the upstream fetch, or the Plivo
SDK call) to the HTTP response together with the list of outbound calls
the handler attempted.
-/

namespace Luna

/-- A JSON value, as produced by the handlers via res.json(...). -/
inductive Json where
  | null : Json
  | bool : Bool → Json
  | num : ℚ → Json
  | str : String → Json
  | arr : List Json → Json
  | obj : List (String × Json) → Json

/-- Field lookup on a JSON object (first match), none on non-objects. -/
def Json.lookup : Json → String → Option Json
  | .obj kvs, k => List.lookup k kvs
  | _, _ => none

/-- JSON string escaping as performed by JSON.stringify for the characters
that can occur in the strings this system manipulates. -/
def escapeJsonChar (c : Char) : String :=
  if c = '"' then "\\\""
  else if c = '\\' then "\\\\"
  else if c = '\n' then "\\n"
  else if c = '\t' then "\\t"
  else if c = '\r' then "\\r"
  else String.singleton c

def escapeJson (s : String) : String :=
  String.join (s.toList.map escapeJsonChar)

/-- Rendering of a rational JSON number. Integral values render as JS
integers; the handlers under study only ever render string-valued JSON
in the positions where bytes matter. -/
def renderNum (q : ℚ) : String :=
  if q.den = 1 then toString q.num else toString q

mutual

/-- Serialization of a JSON value, mirroring JSON.stringify. -/
def Json.render : Json → String
  | .null => "null"
  | .bool true => "true"
  | .bool false => "false"
  | .num q => renderNum q
  | .str s => "\"" ++ escapeJson s ++ "\""
  | .arr xs => "[" ++ Json.renderList xs ++ "]"
  | .obj kvs => "\x7b" ++ Json.renderObj kvs ++ "\x7d"

def Json.renderList : List Json → String
  | [] => ""
  | [x] => Json.render x
  | x :: y :: xs => Json.render x ++ "," ++ Json.renderList (y :: xs)

def Json.renderObj : List (String × Json) → String
  | [] => ""
  | [kv] => "\"" ++ escapeJson kv.1 ++ "\":" ++ Json.render kv.2
  | kv :: kv2 :: kvs =>
      "\"" ++ escapeJson kv.1 ++ "\":" ++ Json.render kv.2 ++ "," ++ Json.renderObj (kv2 :: kvs)

end

/-- An HTTP response body: either raw text sent with res.send, or a JSON
value sent with res.json. -/
inductive Body where
  | text : String → Body
  | json : Json → Body

/-- The bytes of a response body as they reach the caller. -/
def Body.render : Body → String
  | .text s => s
  | .json j => j.render

/-- An HTTP response: status code and body. -/
structure Response where
  status : Nat
  body : Body

/-- The outcome of one outbound fetch: either an upstream HTTP response
(status, body text, parsed JSON of that body) or a thrown network error
carrying the exception message. -/
inductive FetchResult where
  | resp : Nat → String → Json → FetchResult
  | fail : String → FetchResult

/-- response.ok of the fetch API: status in [200, 300). -/
def fetchOk (status : Nat) : Bool :=
  decide (200 ≤ status) && decide (status < 300)

/-- The process environment variables the handlers read. -/
structure Env where
  AUTH_KEY : Option String := none
  BACKEND_URL : Option String := none
  PLIVO_AUTH_ID : Option String := none
  PLIVO_AUTH_TOKEN : Option String := none
deriving DecidableEq, Repr

/-- The parsed JSON request body; absent fields are none. -/
structure ReqBody where
  sdp : Option String := none
  ephemeral_token : Option String := none
  custom_prompt : Option String := none
  instructions : Option String := none
  temperature : Option ℚ := none
  top_p : Option ℚ := none
  top_k : Option ℚ := none
  vad_threshold : Option ℚ := none
  vad_prefix_padding_ms : Option ℚ := none
  vad_silence_duration_ms : Option ℚ := none
  max_tokens : Option ℚ := none
  silence_ms : Option ℚ := none
  voice_ms : Option ℚ := none
  silence_timeout : Option ℚ := none
  to_number : Option String := none
  from_number : Option String := none
deriving DecidableEq, Repr

/-- JS truthiness of a possibly-absent string: undefined and "" are falsy. -/
def truthyStr : Option String → Bool
  | none => false
  | some s => !(s == "")

/-- JS `x || d` on a possibly-absent number: undefined and 0 take the default. -/
def jsOrNum (v : Option ℚ) (d : ℚ) : ℚ :=
  match v with
  | none => d
  | some q => if q = 0 then d else q

/-- JS `x || d` on a possibly-absent string: undefined and "" take the default. -/
def jsOrStr (v : Option String) (d : String) : String :=
  match v with
  | none => d
  | some s => if s = "" then d else s

/-- JS string coercion of a possibly-undefined string value
(template literals and FormData.append turn undefined into "undefined"). -/
def jsStringOf : Option String → String
  | none => "undefined"
  | some s => s

/-- Boolean prefix test on character lists. -/
def listStartsWith : List Char → List Char → Bool
  | [], _ => true
  | _ :: _, [] => false
  | a :: as, b :: bs => a == b && listStartsWith as bs

/-- String.startsWith, stated over the character list so it evaluates. -/
def strStartsWith (s p : String) : Bool :=
  listStartsWith p.toList s.toList

/-- String.endsWith, stated over the character list so it evaluates. -/
def strEndsWith (s p : String) : Bool :=
  listStartsWith p.toList.reverse s.toList.reverse

/-- String.drop, stated over the character list so it evaluates. -/
def strDrop (s : String) (n : Nat) : String :=
  String.mk (s.toList.drop n)

/-- The JS replace idiom that removes one trailing slash. -/
def stripTrailingSlash (s : String) : String :=
  if strEndsWith s "/" then String.mk s.toList.dropLast else s

/-- Body of an outbound call. -/
inductive OutboundBody where
  | empty : OutboundBody
  | jsonB : Json → OutboundBody
  | sdpRaw : String → OutboundBody
  | form : String → Json → OutboundBody
  | plivoCreate : String → String → String → OutboundBody

/-- An outbound call attempted by a handler. -/
structure OutboundCall where
  url : String
  method : String
  headers : List (String × String)
  body : OutboundBody

/-- A handler outcome: response to the caller plus attempted outbound calls. -/
structure HResult where
  resp : Response
  calls : List OutboundCall

/-- res.json of an object with a single error field. -/
def errBody (e : String) : Body :=
  .json (.obj [("error", .str e)])

/-- res.json of an object with error and details fields. -/
def errBodyD (e d : String) : Body :=
  .json (.obj [("error", .str e), ("details", .str d)])

/-- keep present fields, drop the undefined ones (JSON.stringify drops
object entries whose value is undefined). -/
def optFields : List (String × Option Json) → List (String × Json)
  | [] => []
  | (_, none) :: rest => optFields rest
  | (k, some v) :: rest => (k, v) :: optFields rest

/-- The session object built inline by pages/api/ephemeral-key.ts. -/
def sessionEphemeral (b : ReqBody) : Json :=
  .obj [
    ("model", .str "lunav1"),
    ("voice", .str "base"),
    ("instructions", .str (jsOrStr b.custom_prompt "You are a helpful and friendly AI assistant.")),
    ("temperature", .num (jsOrNum b.temperature 0.8)),
    ("top_p", .num (jsOrNum b.top_p 0.95)),
    ("top_k", .num (jsOrNum b.top_k 50)),
    ("turn_detection", .obj [
      ("type", .str "server_vad"),
      ("threshold", .num (jsOrNum b.vad_threshold 0.5)),
      ("prefix_padding_ms", .num (jsOrNum b.vad_prefix_padding_ms 300)),
      ("silence_duration_ms", .num (jsOrNum b.vad_silence_duration_ms 500))]),
    ("input_audio_transcription", .obj [("model", .str "lunav1")])]

/-- The session config built by the direct-key offer handler
(the file whose header reads "WebRTC Direct Connection Endpoint"). -/
def sessionDirect (b : ReqBody) : Json :=
  .obj [
    ("type", .str "realtime"),
    ("model", .str "lunav1"),
    ("audio", .obj [("output", .obj [("voice", .str "base")])]),
    ("turn_detection", .obj [
      ("type", .str "server_vad"),
      ("threshold", .num (jsOrNum b.vad_threshold 0.5)),
      ("prefix_padding_ms", .num (jsOrNum b.vad_prefix_padding_ms 300)),
      ("silence_duration_ms", .num (jsOrNum b.vad_silence_duration_ms 500))]),
    ("input_audio_transcription", .obj [("model", .str "lunav1")]),
    ("instructions", .str (jsOrStr b.custom_prompt "You are a helpful and friendly AI assistant.")),
    ("temperature", .num (jsOrNum b.temperature 0.8)),
    ("top_p", .num (jsOrNum b.top_p 0.95)),
    ("top_k", .num (jsOrNum b.top_k 50))]

/-- The session config built by the legacy direct offer handler (the
"WebRTC Offer/Answer Exchange Endpoint" file that uses AUTH_KEY and
multipart form data and performs no SDP check). -/
def sessionLegacy (b : ReqBody) : Json :=
  .obj [
    ("type", .str "realtime"),
    ("model", .str "lunav1"),
    ("audio", .obj [("output", .obj [("voice", .str "base")])]),
    ("turn_detection", .obj [
      ("type", .str "server_vad"),
      ("threshold", .num (jsOrNum b.vad_threshold 0.5)),
      ("prefix_padding_ms", .num (jsOrNum b.vad_prefix_padding_ms 300)),
      ("silence_duration_ms", .num (jsOrNum b.vad_silence_duration_ms 500))]),
    ("input_audio_transcription", .obj [("model", .str "lunav1")]),
    ("instructions", .str (jsOrStr b.custom_prompt "You are Luna, a helpful AI assistant.")),
    ("temperature", .num (jsOrNum b.temperature 0.8)),
    ("top_p", .num (jsOrNum b.top_p 0.95)),
    ("top_k", .num (jsOrNum b.top_k 50))]

/-- pages/api/ephemeral-key.ts: mint a short-lived token with the
long-lived AUTH_KEY. -/
def handlerEphemeralKey (env : Env) (method : String) (b : ReqBody)
    (upstream : FetchResult) : HResult :=
  if method ≠ "POST" then ⟨⟨405, errBody "Method not allowed"⟩, []⟩
  else if ¬ truthyStr env.AUTH_KEY then
    ⟨⟨500, errBody "Missing AUTH_KEY configuration"⟩, []⟩
  else if ¬ truthyStr env.BACKEND_URL then
    ⟨⟨500, errBody "Missing BACKEND_URL configuration"⟩, []⟩
  else
    let backendUrl := stripTrailingSlash (jsStringOf env.BACKEND_URL)
    let call : OutboundCall :=
      { url := backendUrl ++ "/v1/realtime/client_secrets"
        method := "POST"
        headers := [("Content-Type", "application/json"),
                    ("X-Luna-Key", "Bearer " ++ jsStringOf env.AUTH_KEY)]
        body := .jsonB (.obj [("session", sessionEphemeral b)]) }
    match upstream with
    | .fail msg => ⟨⟨502, errBodyD "Failed to generate ephemeral token" msg⟩, [call]⟩
    | .resp status bodyText json =>
      if fetchOk status then
        ⟨⟨200, .json (.obj (optFields
          [("value", json.lookup "value"),
           ("expires_at", json.lookup "expires_at")]))⟩, [call]⟩
      else
        ⟨⟨status, errBodyD "Failed to create ephemeral token" bodyText⟩, [call]⟩

/-- pages/api/ice-servers.ts (first handler): proxy the ICE server list. -/
def handlerIceServers (env : Env) (method : String)
    (upstream : FetchResult) : HResult :=
  if method ≠ "GET" then ⟨⟨405, errBody "Method not allowed"⟩, []⟩
  else
    let backendUrl := match env.BACKEND_URL with
      | none => "undefined"
      | some u => stripTrailingSlash u
    let call : OutboundCall :=
      { url := backendUrl ++ "/api/ice-servers"
        method := "GET"
        headers := [("Content-Type", "application/json")]
        body := .empty }
    match upstream with
    | .fail msg => ⟨⟨502, errBodyD "Failed to connect to backend" msg⟩, [call]⟩
    | .resp status bodyText json =>
      if fetchOk status then ⟨⟨200, .json json⟩, [call]⟩
      else ⟨⟨status, errBody bodyText⟩, [call]⟩

/-- The request body the Plivo configure proxy forwards: fields are copied
only when present (instructions additionally only when truthy). -/
def configureBody (b : ReqBody) : Json :=
  .obj (optFields [
    ("instructions", if truthyStr b.instructions then b.instructions.map Json.str else none),
    ("temperature", b.temperature.map Json.num),
    ("top_p", b.top_p.map Json.num),
    ("top_k", b.top_k.map Json.num),
    ("max_tokens", b.max_tokens.map Json.num),
    ("vad_threshold", b.vad_threshold.map Json.num),
    ("silence_ms", b.silence_ms.map Json.num),
    ("voice_ms", b.voice_ms.map Json.num),
    ("silence_timeout", b.silence_timeout.map Json.num)])

/-- The Plivo configuration-token proxy handler (second handler in
pages/api/ice-servers.ts): forwards session settings to /plivo/configure
and returns the minted config token. -/
def handlerPlivoConfigure (env : Env) (method : String) (b : ReqBody)
    (upstream : FetchResult) : HResult :=
  if method ≠ "POST" then ⟨⟨405, errBody "Method not allowed"⟩, []⟩
  else if ¬ truthyStr env.BACKEND_URL then
    ⟨⟨500, errBody "Missing BACKEND_URL configuration"⟩, []⟩
  else if ¬ truthyStr env.AUTH_KEY then
    ⟨⟨500, errBody "Missing AUTH_KEY configuration"⟩, []⟩
  else
    let backendUrl := stripTrailingSlash (jsStringOf env.BACKEND_URL)
    let call : OutboundCall :=
      { url := backendUrl ++ "/plivo/configure"
        method := "POST"
        headers := [("Content-Type", "application/json"),
                    ("X-Luna-Key", "Bearer " ++ jsStringOf env.AUTH_KEY)]
        body := .jsonB (configureBody b) }
    match upstream with
    | .fail msg => ⟨⟨502, errBodyD "Failed to connect to backend" msg⟩, [call]⟩
    | .resp status bodyText json =>
      if fetchOk status then ⟨⟨200, .json json⟩, [call]⟩
      else ⟨⟨status, errBodyD "Failed to generate config token" bodyText⟩, [call]⟩

/-- The ephemeral-variant WebRTC offer relay ("WebRTC Offer/Answer Exchange
Endpoint" using an ephemeral token and a raw SDP body). -/
def handlerOffer (env : Env) (method : String) (b : ReqBody)
    (upstream : FetchResult) : HResult :=
  if method ≠ "POST" then ⟨⟨405, errBody "Method not allowed"⟩, []⟩
  else if ¬ truthyStr env.BACKEND_URL then
    ⟨⟨500, errBody "Missing BACKEND_URL configuration"⟩, []⟩
  else if ¬ truthyStr b.sdp then
    ⟨⟨400, errBody "Missing SDP in request"⟩, []⟩
  else if ¬ truthyStr b.ephemeral_token then
    ⟨⟨400, errBody "Missing ephemeral_token. Call /api/ephemeral-key first."⟩, []⟩
  else
    let backendUrl := stripTrailingSlash (jsStringOf env.BACKEND_URL)
    let call : OutboundCall :=
      { url := backendUrl ++ "/v1/realtime/calls"
        method := "POST"
        headers := [("Content-Type", "application/sdp"),
                    ("X-Luna-Key", "Bearer " ++ jsStringOf b.ephemeral_token)]
        body := .sdpRaw (jsStringOf b.sdp) }
    match upstream with
    | .fail msg => ⟨⟨502, errBodyD "Failed to connect to backend" msg⟩, [call]⟩
    | .resp status bodyText _ =>
      if fetchOk status then ⟨⟨200, .text bodyText⟩, [call]⟩
      else ⟨⟨status, .text bodyText⟩, [call]⟩

/-- The direct-key WebRTC offer relay ("WebRTC Direct Connection Endpoint"):
multipart form body, long-lived AUTH_KEY, and an SDP-presence check. -/
def handlerOfferDirect (env : Env) (method : String) (b : ReqBody)
    (upstream : FetchResult) : HResult :=
  if method ≠ "POST" then ⟨⟨405, errBody "Method not allowed"⟩, []⟩
  else if ¬ truthyStr env.AUTH_KEY then
    ⟨⟨500, errBody "Missing AUTH_KEY configuration"⟩, []⟩
  else if ¬ truthyStr env.BACKEND_URL then
    ⟨⟨500, errBody "Missing BACKEND_URL configuration"⟩, []⟩
  else if ¬ truthyStr b.sdp then
    ⟨⟨400, errBody "Missing SDP in request"⟩, []⟩
  else
    let backendUrl := stripTrailingSlash (jsStringOf env.BACKEND_URL)
    let call : OutboundCall :=
      { url := backendUrl ++ "/v1/realtime/calls"
        method := "POST"
        headers := [("X-Luna-Key", "Bearer " ++ jsStringOf env.AUTH_KEY)]
        body := .form (jsStringOf b.sdp) (sessionDirect b) }
    match upstream with
    | .fail msg => ⟨⟨502, errBodyD "Failed to connect to backend" msg⟩, [call]⟩
    | .resp status bodyText _ =>
      if fetchOk status then ⟨⟨200, .text bodyText⟩, [call]⟩
      else ⟨⟨status, .text bodyText⟩, [call]⟩

/-- The legacy direct WebRTC offer relay (the "WebRTC Offer/Answer Exchange
Endpoint" file with a multipart body and AUTH_KEY): no configuration check
and no SDP-presence check; an absent sdp is coerced to "undefined". -/
def handlerOfferLegacy (env : Env) (method : String) (b : ReqBody)
    (upstream : FetchResult) : HResult :=
  if method ≠ "POST" then ⟨⟨405, errBody "Method not allowed"⟩, []⟩
  else
    let backendUrl := match env.BACKEND_URL with
      | none => "undefined"
      | some u => stripTrailingSlash u
    let call : OutboundCall :=
      { url := backendUrl ++ "/v1/realtime/calls"
        method := "POST"
        headers := [("X-Luna-Key", "Bearer " ++ jsStringOf env.AUTH_KEY)]
        body := .form (jsStringOf b.sdp) (sessionLegacy b) }
    match upstream with
    | .fail msg => ⟨⟨502, errBodyD "Failed to connect to backend" msg⟩, [call]⟩
    | .resp status bodyText _ =>
      if fetchOk status then ⟨⟨200, .text bodyText⟩, [call]⟩
      else ⟨⟨status, .text bodyText⟩, [call]⟩

/-- Query parameters of the Plivo answer endpoint (query and body merged by
the handler; all values are strings). -/
structure QueryParams where
  config_token : Option String := none
  temperature : Option String := none
  silence_timeout : Option String := none
  vad_threshold : Option String := none
deriving DecidableEq, Repr

/-- One hexadecimal digit, upper case. -/
def hexDigit (n : Nat) : String :=
  if n = 0 then "0" else if n = 1 then "1" else if n = 2 then "2"
  else if n = 3 then "3" else if n = 4 then "4" else if n = 5 then "5"
  else if n = 6 then "6" else if n = 7 then "7" else if n = 8 then "8"
  else if n = 9 then "9" else if n = 10 then "A" else if n = 11 then "B"
  else if n = 12 then "C" else if n = 13 then "D" else if n = 14 then "E"
  else "F"

/-- The UTF-8 encoding of one character, as byte values. -/
def utf8Bytes (c : Char) : List Nat :=
  let n := c.toNat
  if n < 128 then [n]
  else if n < 2048 then [192 + n / 64, 128 + n % 64]
  else if n < 65536 then [224 + n / 4096, 128 + (n / 64) % 64, 128 + n % 64]
  else [240 + n / 262144, 128 + (n / 4096) % 64, 128 + (n / 64) % 64, 128 + n % 64]

/-- Percent-encoding of one byte. -/
def percentByte (n : Nat) : String :=
  "%" ++ hexDigit (n / 16 % 16) ++ hexDigit (n % 16)

/-- Characters URLSearchParams serializes unchanged
(application/x-www-form-urlencoded). -/
def isFormSafe (c : Char) : Bool :=
  c.isAlphanum || c = '*' || c = '-' || c = '.' || c = '_'

/-- application/x-www-form-urlencoded encoding of one character. -/
def formEncodeChar (c : Char) : String :=
  if isFormSafe c then String.singleton c
  else if c = ' ' then "+"
  else String.join ((utf8Bytes c).map percentByte)

/-- URLSearchParams.toString encoding of one string. -/
def formEncode (s : String) : String :=
  String.join (s.toList.map formEncodeChar)

/-- URLSearchParams.toString over an ordered key/value list. -/
def renderQuery (ps : List (String × String)) : String :=
  String.intercalate "&" (ps.map (fun p => formEncode p.1 ++ "=" ++ formEncode p.2))

/-- params.set k v when v is truthy, else no entry. -/
def optParam (k : String) (v : Option String) : List (String × String) :=
  if truthyStr v then [(k, jsStringOf v)] else []

/-- The ordered query parameters of the Plivo stream URL: api_key always
first, then any truthy config_token / temperature / silence_timeout /
vad_threshold from the request. -/
def answerStreamParams (authKey : String) (p : QueryParams) : List (String × String) :=
  ("api_key", authKey) ::
    (optParam "config_token" p.config_token ++
     optParam "temperature" p.temperature ++
     optParam "silence_timeout" p.silence_timeout ++
     optParam "vad_threshold" p.vad_threshold)

/-- The JS replace idiom that removes a leading http or https scheme. -/
def dropScheme (s : String) : String :=
  if strStartsWith s "https://" then strDrop s 8
  else if strStartsWith s "http://" then strDrop s 7
  else s

/-- The WebSocket stream URL the Plivo answer handler embeds in its XML. -/
def buildStreamUrl (backendRaw : String) (authKey : String) (p : QueryParams) : String :=
  let backendUrl := stripTrailingSlash backendRaw
  let backendHost := dropScheme backendUrl
  let wsProtocol := if strStartsWith backendUrl "https" then "wss" else "ws"
  wsProtocol ++ "://" ++ backendHost ++ "/plivo/stream?" ++
    renderQuery (answerStreamParams authKey p)

/-- XML escaping of text and attribute values. -/
def xmlEscapeChar (c : Char) : String :=
  if c = '&' then "&amp;"
  else if c = '<' then "&lt;"
  else if c = '>' then "&gt;"
  else if c = '"' then "&quot;"
  else String.singleton c

def xmlEscape (s : String) : String :=
  String.join (s.toList.map xmlEscapeChar)

/-- One element of a Plivo answer document: tag, attributes, text content. -/
structure PlivoElem where
  tag : String
  attrs : List (String × String)
  content : String
deriving DecidableEq, Repr

/-- Modelled from the spec: the third-party Plivo SDK Response.toXML
serializer, which is not part of this repository. Per the spec the answer
document is a fixed-structure XML document: a single root element
containing the streaming directive elements added to the response. -/
def renderElem (e : PlivoElem) : String :=
  "<" ++ e.tag ++
    String.join (e.attrs.map (fun a => " " ++ a.1 ++ "=\"" ++ xmlEscape a.2 ++ "\"")) ++
    ">" ++ xmlEscape e.content ++ "</" ++ e.tag ++ ">"

/-- Modelled from the spec: the Plivo SDK XML document wrapper (single
Response root around the added elements, preceded by the XML declaration). -/
def renderPlivoResponse (elems : List PlivoElem) : String :=
  "<?xml version=\"1.0\" encoding=\"utf-8\"?><Response>" ++
    String.join (elems.map renderElem) ++ "</Response>"

/-- The Stream element the answer handler adds: bidirectional audio, fixed
audio content type, 24-hour stream timeout, keep-alive, and the stream URL
as element content. -/
def answerStreamElem (url : String) : PlivoElem :=
  { tag := "Stream"
    attrs := [("bidirectional", "true"),
              ("contentType", "audio/x-l16;rate=8000"),
              ("streamTimeout", "86400"),
              ("keepCallAlive", "true")]
    content := url }

/-- pages/api/plivo/answer.ts: build the Plivo answer XML document. -/
def handlerPlivoAnswer (env : Env) (method : String) (p : QueryParams) : HResult :=
  if method ≠ "GET" ∧ method ≠ "POST" then ⟨⟨405, errBody "Method not allowed"⟩, []⟩
  else if ¬ (truthyStr env.BACKEND_URL ∧ truthyStr env.AUTH_KEY) then
    ⟨⟨500, .text "<!-- Configuration Error -->"⟩, []⟩
  else
    let url := buildStreamUrl (jsStringOf env.BACKEND_URL) (jsStringOf env.AUTH_KEY) p
    ⟨⟨200, .text (renderPlivoResponse [answerStreamElem url])⟩, []⟩

/-- The outcome of the Plivo SDK client.calls.create call: a created call
(request UUID and message) or a thrown error. -/
inductive PlivoSDKResult where
  | ok : String → String → PlivoSDKResult
  | fail : String → PlivoSDKResult
deriving DecidableEq, Repr

/-- The answer-URL query parameters built by the outbound-call handler:
the config token when minted, otherwise any truthy temperature and
silence_timeout from the request, stringified. -/
def plivoAnswerParams (configToken : Option String) (b : ReqBody) : List (String × String) :=
  if truthyStr configToken then [("config_token", jsStringOf configToken)]
  else
    (match b.temperature with
      | some q => if q = 0 then [] else [("temperature", renderNum q)]
      | none => []) ++
    (match b.silence_timeout with
      | some q => if q = 0 then [] else [("silence_timeout", renderNum q)]
      | none => [])

/-- The second stage of the outbound-call handler: build the answer URL and
invoke the Plivo SDK. -/
def plivoCallFinish (b : ReqBody) (host : String) (xfProto : Option String)
    (configToken : Option String) (sdk : PlivoSDKResult)
    (calls0 : List OutboundCall) : HResult :=
  let protocol := jsOrStr xfProto "https"
  let answerUrl := protocol ++ "://" ++ host ++ "/api/plivo/answer"
  let finalAnswerUrl := answerUrl ++ "?" ++ renderQuery (plivoAnswerParams configToken b)
  let sdkCall : OutboundCall :=
    { url := finalAnswerUrl
      method := "PLIVO_CREATE"
      headers := []
      body := .plivoCreate (jsStringOf b.from_number) (jsStringOf b.to_number) finalAnswerUrl }
  match sdk with
  | .fail msg =>
      ⟨⟨500, errBody (jsOrStr (some msg) "Failed to initiate call")⟩, calls0 ++ [sdkCall]⟩
  | .ok uuid message =>
      ⟨⟨200, .json (.obj [("success", .bool true),
                          ("call_uuid", .str uuid),
                          ("message", .str message),
                          ("answer_url", .str finalAnswerUrl)])⟩, calls0 ++ [sdkCall]⟩

/-- The Plivo outbound-call handler (third handler in
pages/api/ice-servers.ts): optionally mints a config token, then creates
the call through the Plivo SDK. A failed mint is only logged; the token is
left unset and the call proceeds. -/
def handlerPlivoCall (env : Env) (method : String) (b : ReqBody)
    (host : String) (xfProto : Option String)
    (configUpstream : FetchResult) (sdk : PlivoSDKResult) : HResult :=
  if method ≠ "POST" then ⟨⟨405, errBody "Method not allowed"⟩, []⟩
  else if ¬ (truthyStr env.PLIVO_AUTH_ID ∧ truthyStr env.PLIVO_AUTH_TOKEN) then
    ⟨⟨500, errBody "Plivo credentials missing"⟩, []⟩
  else if ¬ (truthyStr env.BACKEND_URL ∧ truthyStr env.AUTH_KEY) then
    ⟨⟨500, errBody "Luna configuration missing"⟩, []⟩
  else if truthyStr b.instructions then
    let configCall : OutboundCall :=
      { url := stripTrailingSlash (jsStringOf env.BACKEND_URL) ++ "/plivo/configure"
        method := "POST"
        headers := [("Content-Type", "application/json"),
                    ("X-Luna-Key", "Bearer " ++ jsStringOf env.AUTH_KEY)]
        body := .jsonB (.obj [("instructions", .str (jsStringOf b.instructions)),
                              ("temperature", .num (jsOrNum b.temperature 0.8)),
                              ("silence_timeout", .num (jsOrNum b.silence_timeout 30))]) }
    match configUpstream with
    | .fail msg =>
        ⟨⟨500, errBody (jsOrStr (some msg) "Failed to initiate call")⟩, [configCall]⟩
    | .resp status _ json =>
        let configToken : Option String :=
          if fetchOk status then
            match json.lookup "config_token" with
            | some (.str s) => some s
            | _ => none
          else none
        plivoCallFinish b host xfProto configToken sdk [configCall]
  else
    plivoCallFinish b host xfProto none sdk []

/-- The text of the upstream outcome: the response body text, or the
exception message. -/
def upstreamText : FetchResult → String
  | .resp _ t _ => t
  | .fail m => m

/-- Whether a response body is a JSON object carrying an error field. -/
def hasErrorField : Body → Bool
  | .json (.obj kvs) => kvs.any (fun kv => kv.1 == "error")
  | _ => false

/-- A handler outcome surfaces errors: it is a success, or its body is a
JSON object with an error field, or its body is the upstream body verbatim. -/
def errorSurfaced (u : FetchResult) (r : HResult) : Prop :=
  r.resp.status = 200 ∨ hasErrorField r.resp.body = true ∨ r.resp.body = .text (upstreamText u)

/-- Lookup inside the nested turn_detection object. -/
def tdLookup (j : Json) (k : String) : Option Json :=
  match j.lookup "turn_detection" with
  | some td => td.lookup k
  | _ => none

/-- Contract of a numeric session-config field: a provided truthy (nonzero)
value is passed through, an absent value becomes the default, and the field
is always populated with a number. -/
def numFieldSpec (f : ReqBody → Json) (get : Json → Option Json)
    (sel : ReqBody → Option ℚ) (d : ℚ) : Prop :=
  (∀ b q, q ≠ 0 → sel b = some q → get (f b) = some (.num q)) ∧
  (∀ b, sel b = none → get (f b) = some (.num d)) ∧
  (∀ b, sel b = some 0 → get (f b) = some (.num d)) ∧
  (∀ b, ∃ q : ℚ, get (f b) = some (.num q))

/-- Contract of the instruction field: a provided truthy (nonempty) string
is passed through, an absent one becomes the default persona string, and
the field is always populated with a string. -/
def strFieldSpec (f : ReqBody → Json) (sel : ReqBody → Option String) (d : String) : Prop :=
  (∀ b s, s ≠ "" → sel b = some s → (f b).lookup "instructions" = some (.str s)) ∧
  (∀ b, sel b = none → (f b).lookup "instructions" = some (.str d)) ∧
  (∀ b, sel b = some "" → (f b).lookup "instructions" = some (.str d)) ∧
  (∀ b, ∃ s : String, (f b).lookup "instructions" = some (.str s))

theorem truthyStr_some (s : String) : truthyStr (some s) = true ↔ s ≠ "" := by
  simp [truthyStr]

/-- C4: on the token-issuance endpoint (ephemeral-key), when the long-lived
credential AUTH_KEY is absent from the environment, the handler makes no
outbound call at all, and a POST request is answered immediately with the
server-error status 500 and the ConfigurationError body. -/
theorem C4_missing_key_fail_fast (bu pid ptok : Option String) (m : String)
    (b : ReqBody) (u : FetchResult) :
    (handlerEphemeralKey ⟨none, bu, pid, ptok⟩ m b u).calls = [] ∧
    (m = "POST" →
      handlerEphemeralKey ⟨none, bu, pid, ptok⟩ m b u
        = ⟨⟨500, errBody "Missing AUTH_KEY configuration"⟩, []⟩) := by
  by_cases hm : m = "POST"
  · subst hm
    exact ⟨by simp [handlerEphemeralKey, truthyStr], fun _ => by simp [handlerEphemeralKey, truthyStr]⟩
  · exact ⟨by simp [handlerEphemeralKey, hm], fun h => absurd h hm⟩

/-- Witness for C4 at a concrete POST request. -/
theorem C4_witness :
    (handlerEphemeralKey ⟨none, some "https://b", none, none⟩ "POST" {} (.fail "boom")).calls = [] ∧
    handlerEphemeralKey ⟨none, some "https://b", none, none⟩ "POST" {} (.fail "boom")
      = ⟨⟨500, errBody "Missing AUTH_KEY configuration"⟩, []⟩ :=
  ⟨(C4_missing_key_fail_fast (some "https://b") none none "POST" {} (.fail "boom")).1,
   (C4_missing_key_fail_fast (some "https://b") none none "POST" {} (.fail "boom")).2 rfl⟩

/-- C10: every endpoint rejects a request whose HTTP method is outside its
allowed set (POST for ephemeral-key, config-token, both offer relays, the
legacy offer relay and outbound-call; GET for ice-servers; GET or POST for
the Plivo answer endpoint) with status 405 and body
obj [error, Method not allowed], independently of the environment, before
any outbound call. -/
theorem C10_method_gate (env : Env) (m : String) (b : ReqBody) (u : FetchResult)
    (p : QueryParams) (host : String) (xf : Option String) (sdk : PlivoSDKResult) :
    (m ≠ "POST" →
      handlerEphemeralKey env m b u = ⟨⟨405, errBody "Method not allowed"⟩, []⟩ ∧
      handlerPlivoConfigure env m b u = ⟨⟨405, errBody "Method not allowed"⟩, []⟩ ∧
      handlerOffer env m b u = ⟨⟨405, errBody "Method not allowed"⟩, []⟩ ∧
      handlerOfferDirect env m b u = ⟨⟨405, errBody "Method not allowed"⟩, []⟩ ∧
      handlerOfferLegacy env m b u = ⟨⟨405, errBody "Method not allowed"⟩, []⟩ ∧
      handlerPlivoCall env m b host xf u sdk = ⟨⟨405, errBody "Method not allowed"⟩, []⟩) ∧
    (m ≠ "GET" →
      handlerIceServers env m u = ⟨⟨405, errBody "Method not allowed"⟩, []⟩) ∧
    (m ≠ "GET" → m ≠ "POST" →
      handlerPlivoAnswer env m p = ⟨⟨405, errBody "Method not allowed"⟩, []⟩) := by
  refine ⟨fun hm => ?_, fun hm => ?_, fun hg hp => ?_⟩
  · exact ⟨by simp [handlerEphemeralKey, hm], by simp [handlerPlivoConfigure, hm],
      by simp [handlerOffer, hm], by simp [handlerOfferDirect, hm],
      by simp [handlerOfferLegacy, hm], by simp [handlerPlivoCall, hm]⟩
  · simp [handlerIceServers, hm]
  · simp [handlerPlivoAnswer, hg, hp]

/-- Witness for C10 at the concrete method DELETE. -/
theorem C10_witness :
    handlerEphemeralKey ⟨none, none, none, none⟩ "DELETE" {} (.fail "x")
        = ⟨⟨405, errBody "Method not allowed"⟩, []⟩ ∧
    handlerIceServers ⟨none, none, none, none⟩ "DELETE" (.fail "x")
        = ⟨⟨405, errBody "Method not allowed"⟩, []⟩ ∧
    handlerPlivoAnswer ⟨none, none, none, none⟩ "DELETE" {}
        = ⟨⟨405, errBody "Method not allowed"⟩, []⟩ :=
  ⟨((C10_method_gate ⟨none, none, none, none⟩ "DELETE" {} (.fail "x") {} "h" none (.fail "y")).1
      (by decide)).1,
   (C10_method_gate ⟨none, none, none, none⟩ "DELETE" {} (.fail "x") {} "h" none (.fail "y")).2.1
      (by decide),
   (C10_method_gate ⟨none, none, none, none⟩ "DELETE" {} (.fail "x") {} "h" none (.fail "y")).2.2
      (by decide) (by decide)⟩

/-- C5 counterexample: a POST to the ephemeral offer relay in which both
sdp and ephemeral_token are present (sdp is the empty string) does not
proceed to the upstream call: it is rejected with 400 and no outbound
call, contrary to the claim that presence of both fields suffices. -/
theorem C5_counterexample :
    ({ sdp := some "", ephemeral_token := some "tok" } : ReqBody).sdp ≠ none ∧
    ({ sdp := some "", ephemeral_token := some "tok" } : ReqBody).ephemeral_token ≠ none ∧
    handlerOffer ⟨none, some "https://b", none, none⟩ "POST"
        { sdp := some "", ephemeral_token := some "tok" } (.fail "unused")
      = ⟨⟨400, errBody "Missing SDP in request"⟩, []⟩ := by
  exact ⟨by simp, by simp, rfl⟩

/-- C5 amended: on a configured POST to the ephemeral offer relay, a falsy
(absent or empty) sdp is rejected with 400 "Missing SDP in request" and no
outbound call; with a truthy sdp, a falsy ephemeral_token is rejected with
400 and no outbound call; with both truthy the handler performs exactly one
outbound call. -/
theorem C5_amended_validation (ak pid ptok : Option String) (bu : String) (hbu : bu ≠ "")
    (b : ReqBody) (u : FetchResult) :
    (truthyStr b.sdp = false →
      handlerOffer ⟨ak, some bu, pid, ptok⟩ "POST" b u
        = ⟨⟨400, errBody "Missing SDP in request"⟩, []⟩) ∧
    (truthyStr b.sdp = true → truthyStr b.ephemeral_token = false →
      handlerOffer ⟨ak, some bu, pid, ptok⟩ "POST" b u
        = ⟨⟨400, errBody "Missing ephemeral_token. Call /api/ephemeral-key first."⟩, []⟩) ∧
    (truthyStr b.sdp = true → truthyStr b.ephemeral_token = true →
      (handlerOffer ⟨ak, some bu, pid, ptok⟩ "POST" b u).calls.length = 1) := by
  refine ⟨fun hs => ?_, fun hs ht => ?_, fun hs ht => ?_⟩
  · simp [handlerOffer, truthyStr_some, hbu, hs]
  · simp [handlerOffer, truthyStr_some, hbu, hs, ht]
  · rcases u with ⟨st, txt, j⟩ | msg
    · simp [handlerOffer, truthyStr_some, hbu, hs, ht]
      split <;> rfl
    · simp [handlerOffer, truthyStr_some, hbu, hs, ht]

/-- Witness for C5 at concrete inputs exercising all three cases. -/
theorem C5_witness :
    handlerOffer ⟨none, some "https://b", none, none⟩ "POST" {} (.fail "x")
      = ⟨⟨400, errBody "Missing SDP in request"⟩, []⟩ ∧
    handlerOffer ⟨none, some "https://b", none, none⟩ "POST" { sdp := some "v=0" } (.fail "x")
      = ⟨⟨400, errBody "Missing ephemeral_token. Call /api/ephemeral-key first."⟩, []⟩ ∧
    (handlerOffer ⟨none, some "https://b", none, none⟩ "POST"
        { sdp := some "v=0", ephemeral_token := some "tok" } (.fail "x")).calls.length = 1 :=
  ⟨(C5_amended_validation none none none "https://b" (by decide) {} (.fail "x")).1 rfl,
   (C5_amended_validation none none none "https://b" (by decide) { sdp := some "v=0" } (.fail "x")).2.1
      (by decide) rfl,
   (C5_amended_validation none none none "https://b" (by decide)
      { sdp := some "v=0", ephemeral_token := some "tok" } (.fail "x")).2.2 (by decide) (by decide)⟩

/-- C6 counterexample: the direct-key offer handler, on a configured POST
with sdp absent, does produce the 400 validation response and attempts no
outbound call, contrary to the claim that the direct variant performs no
SDP-presence validation. -/
theorem C6_counterexample :
    ({} : ReqBody).sdp = none ∧
    handlerOfferDirect ⟨some "k", some "https://b", none, none⟩ "POST" {} (.fail "unused")
      = ⟨⟨400, errBody "Missing SDP in request"⟩, []⟩ :=
  ⟨rfl, rfl⟩

/-- C6 amended: of the two direct-key offer handlers, the legacy one indeed
performs no SDP-presence validation — on a POST with sdp absent it still
attempts exactly one outbound call, sending the coerced form value
"undefined" as the sdp part, and never answers with the 400 validation
body — while the direct-key handler labelled "WebRTC Direct Connection
Endpoint" rejects a missing sdp with 400 before any outbound call. -/
theorem C6_amended_asymmetry (env : Env) (b : ReqBody) (u : FetchResult)
    (k bu : String) (hk : k ≠ "") (hbu : bu ≠ "") (b2 : ReqBody) (u2 : FetchResult) :
    (handlerOfferLegacy env "POST" { b with sdp := none } u).calls.length = 1 ∧
    (∀ oc ∈ (handlerOfferLegacy env "POST" { b with sdp := none } u).calls,
        oc.body = .form "undefined" (sessionLegacy { b with sdp := none })) ∧
    (handlerOfferLegacy env "POST" { b with sdp := none } u).resp.body
        ≠ errBody "Missing SDP in request" ∧
    handlerOfferDirect ⟨some k, some bu, none, none⟩ "POST" { b2 with sdp := none } u2
      = ⟨⟨400, errBody "Missing SDP in request"⟩, []⟩ := by
  refine ⟨?_, ?_, ?_, ?_⟩
  · rcases u with ⟨st, txt, j⟩ | msg
    · simp [handlerOfferLegacy]
      split <;> rfl
    · simp [handlerOfferLegacy]
  · rcases u with ⟨st, txt, j⟩ | msg
    · simp [handlerOfferLegacy, jsStringOf]
      split <;> simp
    · simp [handlerOfferLegacy, jsStringOf]
  · rcases u with ⟨st, txt, j⟩ | msg
    · simp [handlerOfferLegacy, errBody]
      split <;> simp
    · simp [handlerOfferLegacy, errBody, errBodyD]
  · simp [handlerOfferDirect, truthyStr_some, hk, hbu, truthyStr]

/-- Witness for C6 at concrete inputs. -/
theorem C6_witness :
    (handlerOfferLegacy ⟨some "k", some "https://b", none, none⟩ "POST" {} (.fail "x")).calls.length = 1 ∧
    handlerOfferDirect ⟨some "k", some "https://b", none, none⟩ "POST" {} (.fail "x")
      = ⟨⟨400, errBody "Missing SDP in request"⟩, []⟩ :=
  ⟨(C6_amended_asymmetry ⟨some "k", some "https://b", none, none⟩ {} (.fail "x")
      "k" "https://b" (by decide) (by decide) {} (.fail "x")).1,
   (C6_amended_asymmetry ⟨some "k", some "https://b", none, none⟩ {} (.fail "x")
      "k" "https://b" (by decide) (by decide) {} (.fail "x")).2.2.2⟩

/-- C3 counterexample: with a mocked upstream returning 503 and body
"overloaded", the ephemeral-key endpoint relays the status but not the
body: the bytes sent to the caller are a JSON wrapper, not "overloaded". -/
theorem C3_counterexample :
    (handlerEphemeralKey ⟨some "k", some "https://b", none, none⟩ "POST" {}
        (.resp 503 "overloaded" .null)).resp.status = 503 ∧
    Body.render (handlerEphemeralKey ⟨some "k", some "https://b", none, none⟩ "POST" {}
        (.resp 503 "overloaded" .null)).resp.body ≠ "overloaded" :=
  ⟨rfl, by decide⟩

/-- C3 amended: on a non-success upstream status every relay endpoint
returns exactly the upstream status code; the three offer relays return the
upstream body verbatim, while ephemeral-key and config-token wrap it as the
details field of a JSON error object and ice-servers wraps it as the error
field. -/
theorem C3_amended_relay (k bu : String) (hk : k ≠ "") (hbu : bu ≠ "")
    (b : ReqBody) (hsdp : truthyStr b.sdp = true) (htok : truthyStr b.ephemeral_token = true)
    (st : Nat) (hst : fetchOk st = false) (txt : String) (j : Json) :
    (handlerEphemeralKey ⟨some k, some bu, none, none⟩ "POST" b (.resp st txt j)).resp
      = ⟨st, errBodyD "Failed to create ephemeral token" txt⟩ ∧
    (handlerIceServers ⟨some k, some bu, none, none⟩ "GET" (.resp st txt j)).resp
      = ⟨st, errBody txt⟩ ∧
    (handlerPlivoConfigure ⟨some k, some bu, none, none⟩ "POST" b (.resp st txt j)).resp
      = ⟨st, errBodyD "Failed to generate config token" txt⟩ ∧
    (handlerOffer ⟨some k, some bu, none, none⟩ "POST" b (.resp st txt j)).resp
      = ⟨st, .text txt⟩ ∧
    (handlerOfferDirect ⟨some k, some bu, none, none⟩ "POST" b (.resp st txt j)).resp
      = ⟨st, .text txt⟩ ∧
    (handlerOfferLegacy ⟨some k, some bu, none, none⟩ "POST" b (.resp st txt j)).resp
      = ⟨st, .text txt⟩ := by
  refine ⟨?_, ?_, ?_, ?_, ?_, ?_⟩ <;>
    simp [handlerEphemeralKey, handlerIceServers, handlerPlivoConfigure, handlerOffer,
      handlerOfferDirect, handlerOfferLegacy, truthyStr_some, hk, hbu, hsdp, htok, hst]

/-- Witness for C3 at the concrete 503/"overloaded" upstream. -/
theorem C3_witness :
    (handlerIceServers ⟨some "k", some "https://b", none, none⟩ "GET"
        (.resp 503 "overloaded" .null)).resp = ⟨503, errBody "overloaded"⟩ ∧
    (handlerOffer ⟨some "k", some "https://b", none, none⟩ "POST"
        { sdp := some "v=0", ephemeral_token := some "tok" }
        (.resp 503 "overloaded" .null)).resp = ⟨503, .text "overloaded"⟩ :=
  ⟨(C3_amended_relay "k" "https://b" (by decide) (by decide)
      { sdp := some "v=0", ephemeral_token := some "tok" } (by decide) (by decide)
      503 (by decide) "overloaded" .null).2.1,
   (C3_amended_relay "k" "https://b" (by decide) (by decide)
      { sdp := some "v=0", ephemeral_token := some "tok" } (by decide) (by decide)
      503 (by decide) "overloaded" .null).2.2.2.1⟩

/-- C7 counterexample: when the upstream fetch throws, the ephemeral-key
endpoint does return the fixed 502 with error and details fields, but its
error field is "Failed to generate ephemeral token", not a
failed-to-connect message. -/
theorem C7_counterexample :
    (handlerEphemeralKey ⟨some "k", some "https://b", none, none⟩ "POST" {} (.fail "boom")).resp
      = ⟨502, errBodyD "Failed to generate ephemeral token" "boom"⟩ ∧
    "Failed to generate ephemeral token" ≠ "Failed to connect to backend" :=
  ⟨rfl, by decide⟩

/-- C7 amended: when the outbound fetch throws, every relay endpoint
returns the fixed gateway status 502 with a JSON body whose error field is
a fixed generic message and whose details field is the exception text; the
message is "Failed to connect to backend" for ice-servers, config-token and
all three offer relays, and "Failed to generate ephemeral token" for the
ephemeral-key endpoint. -/
theorem C7_amended_connectivity (k bu : String) (hk : k ≠ "") (hbu : bu ≠ "")
    (b : ReqBody) (hsdp : truthyStr b.sdp = true) (htok : truthyStr b.ephemeral_token = true)
    (msg : String) :
    (handlerEphemeralKey ⟨some k, some bu, none, none⟩ "POST" b (.fail msg)).resp
      = ⟨502, errBodyD "Failed to generate ephemeral token" msg⟩ ∧
    (handlerIceServers ⟨some k, some bu, none, none⟩ "GET" (.fail msg)).resp
      = ⟨502, errBodyD "Failed to connect to backend" msg⟩ ∧
    (handlerPlivoConfigure ⟨some k, some bu, none, none⟩ "POST" b (.fail msg)).resp
      = ⟨502, errBodyD "Failed to connect to backend" msg⟩ ∧
    (handlerOffer ⟨some k, some bu, none, none⟩ "POST" b (.fail msg)).resp
      = ⟨502, errBodyD "Failed to connect to backend" msg⟩ ∧
    (handlerOfferDirect ⟨some k, some bu, none, none⟩ "POST" b (.fail msg)).resp
      = ⟨502, errBodyD "Failed to connect to backend" msg⟩ ∧
    (handlerOfferLegacy ⟨some k, some bu, none, none⟩ "POST" b (.fail msg)).resp
      = ⟨502, errBodyD "Failed to connect to backend" msg⟩ := by
  refine ⟨?_, ?_, ?_, ?_, ?_, ?_⟩ <;>
    simp [handlerEphemeralKey, handlerIceServers, handlerPlivoConfigure, handlerOffer,
      handlerOfferDirect, handlerOfferLegacy, truthyStr_some, hk, hbu, hsdp, htok]

/-- Witness for C7 at a concrete connection failure. -/
theorem C7_witness :
    (handlerIceServers ⟨some "k", some "https://b", none, none⟩ "GET" (.fail "ECONNREFUSED")).resp
      = ⟨502, errBodyD "Failed to connect to backend" "ECONNREFUSED"⟩ ∧
    (handlerOffer ⟨some "k", some "https://b", none, none⟩ "POST"
        { sdp := some "v=0", ephemeral_token := some "tok" } (.fail "ECONNREFUSED")).resp
      = ⟨502, errBodyD "Failed to connect to backend" "ECONNREFUSED"⟩ :=
  ⟨(C7_amended_connectivity "k" "https://b" (by decide) (by decide)
      { sdp := some "v=0", ephemeral_token := some "tok" } (by decide) (by decide)
      "ECONNREFUSED").2.1,
   (C7_amended_connectivity "k" "https://b" (by decide) (by decide)
      { sdp := some "v=0", ephemeral_token := some "tok" } (by decide) (by decide)
      "ECONNREFUSED").2.2.2.1⟩

set_option maxRecDepth 8192 in
/-- C1 counterexample: two runs of the Plivo answer handler that differ only
in the long-lived credential produce different response bodies (the XML
embeds api_key=AUTH_KEY in the stream URL), so the two-run noninterference
claimed for every endpoint fails at the telephony-answer endpoint. -/
theorem C1_counterexample :
    Body.render (handlerPlivoAnswer ⟨some "k1", some "https://b", none, none⟩ "GET" {}).resp.body
      ≠ Body.render (handlerPlivoAnswer ⟨some "k2", some "https://b", none, none⟩ "GET" {}).resp.body := by
  decide

/-- C1 amended: for every endpoint except the telephony-answer document
builder, the response is independent of the value of the long-lived
credential: two runs with different nonempty AUTH_KEY values and otherwise
identical inputs produce identical responses. -/
theorem C1_amended_noninterference (k1 k2 : String) (h1 : k1 ≠ "") (h2 : k2 ≠ "")
    (bu pid ptok : Option String) (m : String) (b : ReqBody) (u : FetchResult)
    (host : String) (xf : Option String) (sdk : PlivoSDKResult) :
    (handlerEphemeralKey ⟨some k1, bu, pid, ptok⟩ m b u).resp
      = (handlerEphemeralKey ⟨some k2, bu, pid, ptok⟩ m b u).resp ∧
    (handlerIceServers ⟨some k1, bu, pid, ptok⟩ m u).resp
      = (handlerIceServers ⟨some k2, bu, pid, ptok⟩ m u).resp ∧
    (handlerPlivoConfigure ⟨some k1, bu, pid, ptok⟩ m b u).resp
      = (handlerPlivoConfigure ⟨some k2, bu, pid, ptok⟩ m b u).resp ∧
    (handlerOffer ⟨some k1, bu, pid, ptok⟩ m b u).resp
      = (handlerOffer ⟨some k2, bu, pid, ptok⟩ m b u).resp ∧
    (handlerOfferDirect ⟨some k1, bu, pid, ptok⟩ m b u).resp
      = (handlerOfferDirect ⟨some k2, bu, pid, ptok⟩ m b u).resp ∧
    (handlerOfferLegacy ⟨some k1, bu, pid, ptok⟩ m b u).resp
      = (handlerOfferLegacy ⟨some k2, bu, pid, ptok⟩ m b u).resp ∧
    (handlerPlivoCall ⟨some k1, bu, pid, ptok⟩ m b host xf u sdk).resp
      = (handlerPlivoCall ⟨some k2, bu, pid, ptok⟩ m b host xf u sdk).resp := by
  refine ⟨?_, rfl, ?_, rfl, ?_, ?_, ?_⟩
  · rcases u with ⟨st, txt, j⟩ | msg <;>
      simp [handlerEphemeralKey, truthyStr_some, h1, h2] <;>
      split_ifs <;> rfl
  · rcases u with ⟨st, txt, j⟩ | msg <;>
      simp [handlerPlivoConfigure, truthyStr_some, h1, h2] <;>
      split_ifs <;> rfl
  · rcases u with ⟨st, txt, j⟩ | msg <;>
      simp [handlerOfferDirect, truthyStr_some, h1, h2] <;>
      split_ifs <;> rfl
  · rcases u with ⟨st, txt, j⟩ | msg <;>
      simp [handlerOfferLegacy] <;>
      split_ifs <;> rfl
  · rcases u with ⟨st, txt, j⟩ | msg <;> rcases sdk with ⟨uuid, message⟩ | emsg <;>
      simp [handlerPlivoCall, plivoCallFinish, truthyStr_some, h1, h2] <;>
      split_ifs <;> rfl

/-- Witness for C1 at two concrete credentials. -/
theorem C1_witness :
    (handlerEphemeralKey ⟨some "k1", some "https://b", none, none⟩ "POST" {} (.fail "x")).resp
      = (handlerEphemeralKey ⟨some "k2", some "https://b", none, none⟩ "POST" {} (.fail "x")).resp :=
  (C1_amended_noninterference "k1" "k2" (by decide) (by decide) (some "https://b") none none
    "POST" {} (.fail "x") "h" none (.fail "y")).1

theorem numFieldSpec_of (f : ReqBody → Json) (get : Json → Option Json)
    (sel : ReqBody → Option ℚ) (d : ℚ)
    (h : ∀ b, get (f b) = some (.num (jsOrNum (sel b) d))) :
    numFieldSpec f get sel d := by
  refine ⟨fun b q hq hs => ?_, fun b hs => ?_, fun b hs => ?_,
    fun b => ⟨jsOrNum (sel b) d, h b⟩⟩
  · rw [h b, hs]; simp [jsOrNum, hq]
  · rw [h b, hs]; rfl
  · rw [h b, hs]; simp [jsOrNum]

theorem strFieldSpec_of (f : ReqBody → Json) (sel : ReqBody → Option String) (d : String)
    (h : ∀ b, (f b).lookup "instructions" = some (.str (jsOrStr (sel b) d))) :
    strFieldSpec f sel d := by
  refine ⟨fun b s hs hsel => ?_, fun b hsel => ?_, fun b hsel => ?_,
    fun b => ⟨jsOrStr (sel b) d, h b⟩⟩
  · rw [h b, hsel]; simp [jsOrStr, hs]
  · rw [h b, hsel]; rfl
  · rw [h b, hsel]; simp [jsOrStr]

/-- C2 counterexample: a provided temperature of 0 is not passed through by
the Session-Config Builder: the output field is the default 0.8, not the
caller-supplied value, because the JS fallback uses truthiness. -/
theorem C2_counterexample :
    (sessionEphemeral { temperature := some 0 }).lookup "temperature" = some (.num 0.8) ∧
    (0.8 : ℚ) ≠ 0 :=
  ⟨rfl, by norm_num⟩

/-- C2 amended: in each of the three builder instantiations (ephemeral-key,
direct-key offer, legacy offer), every session-config field is always
populated; a provided truthy value (nonzero number, nonempty string) is
passed through unchanged, and an absent field takes the documented default
(persona instruction string, temperature 0.8, top_p 0.95, top_k 50, VAD
threshold 0.5, prefix padding 300 ms, silence duration 500 ms). -/
theorem C2_amended_builder_contract :
    strFieldSpec sessionEphemeral (fun b => b.custom_prompt)
      "You are a helpful and friendly AI assistant." ∧
    numFieldSpec sessionEphemeral (fun j => j.lookup "temperature") (fun b => b.temperature) 0.8 ∧
    numFieldSpec sessionEphemeral (fun j => j.lookup "top_p") (fun b => b.top_p) 0.95 ∧
    numFieldSpec sessionEphemeral (fun j => j.lookup "top_k") (fun b => b.top_k) 50 ∧
    numFieldSpec sessionEphemeral (fun j => tdLookup j "threshold") (fun b => b.vad_threshold) 0.5 ∧
    numFieldSpec sessionEphemeral (fun j => tdLookup j "prefix_padding_ms")
      (fun b => b.vad_prefix_padding_ms) 300 ∧
    numFieldSpec sessionEphemeral (fun j => tdLookup j "silence_duration_ms")
      (fun b => b.vad_silence_duration_ms) 500 ∧
    strFieldSpec sessionDirect (fun b => b.custom_prompt)
      "You are a helpful and friendly AI assistant." ∧
    numFieldSpec sessionDirect (fun j => j.lookup "temperature") (fun b => b.temperature) 0.8 ∧
    numFieldSpec sessionDirect (fun j => j.lookup "top_p") (fun b => b.top_p) 0.95 ∧
    numFieldSpec sessionDirect (fun j => j.lookup "top_k") (fun b => b.top_k) 50 ∧
    numFieldSpec sessionDirect (fun j => tdLookup j "threshold") (fun b => b.vad_threshold) 0.5 ∧
    numFieldSpec sessionDirect (fun j => tdLookup j "prefix_padding_ms")
      (fun b => b.vad_prefix_padding_ms) 300 ∧
    numFieldSpec sessionDirect (fun j => tdLookup j "silence_duration_ms")
      (fun b => b.vad_silence_duration_ms) 500 ∧
    strFieldSpec sessionLegacy (fun b => b.custom_prompt)
      "You are Luna, a helpful AI assistant." ∧
    numFieldSpec sessionLegacy (fun j => j.lookup "temperature") (fun b => b.temperature) 0.8 ∧
    numFieldSpec sessionLegacy (fun j => j.lookup "top_p") (fun b => b.top_p) 0.95 ∧
    numFieldSpec sessionLegacy (fun j => j.lookup "top_k") (fun b => b.top_k) 50 ∧
    numFieldSpec sessionLegacy (fun j => tdLookup j "threshold") (fun b => b.vad_threshold) 0.5 ∧
    numFieldSpec sessionLegacy (fun j => tdLookup j "prefix_padding_ms")
      (fun b => b.vad_prefix_padding_ms) 300 ∧
    numFieldSpec sessionLegacy (fun j => tdLookup j "silence_duration_ms")
      (fun b => b.vad_silence_duration_ms) 500 := by
  refine ⟨?_, ?_, ?_, ?_, ?_, ?_, ?_, ?_, ?_, ?_, ?_, ?_, ?_, ?_, ?_, ?_, ?_, ?_, ?_, ?_, ?_⟩ <;>
    first
      | exact strFieldSpec_of _ _ _ (fun b => rfl)
      | exact numFieldSpec_of _ _ _ _ (fun b => rfl)

/-- Witness for C2: the default persona for an empty body, pass-through of
a provided nonzero temperature, and the default for a provided zero
temperature and a provided empty instruction string. -/
theorem C2_witness :
    (sessionEphemeral {}).lookup "instructions"
      = some (.str "You are a helpful and friendly AI assistant.") ∧
    (sessionEphemeral { temperature := some 5 }).lookup "temperature" = some (.num 5) ∧
    (sessionEphemeral { temperature := some 0 }).lookup "temperature" = some (.num 0.8) ∧
    (sessionEphemeral { custom_prompt := some "" }).lookup "instructions"
      = some (.str "You are a helpful and friendly AI assistant.") :=
  ⟨C2_amended_builder_contract.1.2.1 {} rfl,
   C2_amended_builder_contract.2.1.1 { temperature := some 5 } 5 (by norm_num) rfl,
   C2_amended_builder_contract.2.1.2.2.1 { temperature := some 0 } rfl,
   C2_amended_builder_contract.1.2.2.1 { custom_prompt := some "" } rfl⟩

/-- C8: a telephony-answer request supplying config_token abc123 yields the
rendered XML document containing exactly one Stream element whose attrs are
bidirectional audio, the fixed audio content type, the 86400-second stream
timeout and keep-alive, whose content is the WebSocket stream URL, and
whose query parameters include api_key = the configured credential and
config_token = abc123. -/
theorem C8_answer_document (k bu : String) (hk : k ≠ "") (hbu : bu ≠ "")
    (m : String) (hm : m = "GET" ∨ m = "POST") (p : QueryParams)
    (hp : p.config_token = some "abc123") :
    handlerPlivoAnswer ⟨some k, some bu, none, none⟩ m p
      = ⟨⟨200, .text (renderPlivoResponse [answerStreamElem (buildStreamUrl bu k p)])⟩, []⟩ ∧
    [answerStreamElem (buildStreamUrl bu k p)].length = 1 ∧
    (answerStreamElem (buildStreamUrl bu k p)).tag = "Stream" ∧
    (answerStreamElem (buildStreamUrl bu k p)).attrs
      = [("bidirectional", "true"), ("contentType", "audio/x-l16;rate=8000"),
         ("streamTimeout", "86400"), ("keepCallAlive", "true")] ∧
    (answerStreamElem (buildStreamUrl bu k p)).content = buildStreamUrl bu k p ∧
    buildStreamUrl bu k p
      = (if strStartsWith (stripTrailingSlash bu) "https" then "wss" else "ws") ++ "://" ++
        dropScheme (stripTrailingSlash bu) ++ "/plivo/stream?" ++
        renderQuery (answerStreamParams k p) ∧
    ("api_key", k) ∈ answerStreamParams k p ∧
    ("config_token", "abc123") ∈ answerStreamParams k p := by
  refine ⟨?_, rfl, rfl, rfl, rfl, rfl, ?_, ?_⟩
  · obtain hm | hm := hm <;> subst hm <;>
      simp [handlerPlivoAnswer, truthyStr_some, hk, hbu, buildStreamUrl, jsStringOf]
  · simp [answerStreamParams]
  · simp [answerStreamParams, optParam, hp, truthyStr, jsStringOf]

/-- Witness for C8 at a concrete credential, backend and request. -/
theorem C8_witness :
    handlerPlivoAnswer ⟨some "secret7", some "https://backend.example", none, none⟩ "GET"
        { config_token := some "abc123" }
      = ⟨⟨200, .text (renderPlivoResponse [answerStreamElem
          (buildStreamUrl "https://backend.example" "secret7" { config_token := some "abc123" })])⟩, []⟩ ∧
    ("api_key", "secret7")
      ∈ answerStreamParams "secret7" { config_token := some "abc123" } ∧
    ("config_token", "abc123")
      ∈ answerStreamParams "secret7" { config_token := some "abc123" } :=
  ⟨(C8_answer_document "secret7" "https://backend.example" (by decide) (by decide)
      "GET" (Or.inl rfl) { config_token := some "abc123" } rfl).1,
   (C8_answer_document "secret7" "https://backend.example" (by decide) (by decide)
      "GET" (Or.inl rfl) { config_token := some "abc123" } rfl).2.2.2.2.2.2.1,
   (C8_answer_document "secret7" "https://backend.example" (by decide) (by decide)
      "GET" (Or.inl rfl) { config_token := some "abc123" } rfl).2.2.2.2.2.2.2⟩

theorem surfaced_ephemeral (env : Env) (m : String) (b : ReqBody) (u : FetchResult) :
    errorSurfaced u (handlerEphemeralKey env m b u) := by
  rcases u with ⟨st, txt, j⟩ | msg <;>
    simp only [handlerEphemeralKey, errorSurfaced] <;>
    split_ifs <;>
    simp [hasErrorField, errBody, errBodyD, upstreamText]

theorem surfaced_iceServers (env : Env) (m : String) (u : FetchResult) :
    errorSurfaced u (handlerIceServers env m u) := by
  rcases u with ⟨st, txt, j⟩ | msg <;>
    simp only [handlerIceServers, errorSurfaced] <;>
    split_ifs <;>
    simp [hasErrorField, errBody, errBodyD, upstreamText]

theorem surfaced_configure (env : Env) (m : String) (b : ReqBody) (u : FetchResult) :
    errorSurfaced u (handlerPlivoConfigure env m b u) := by
  rcases u with ⟨st, txt, j⟩ | msg <;>
    simp only [handlerPlivoConfigure, errorSurfaced] <;>
    split_ifs <;>
    simp [hasErrorField, errBody, errBodyD, upstreamText]

theorem surfaced_offer (env : Env) (m : String) (b : ReqBody) (u : FetchResult) :
    errorSurfaced u (handlerOffer env m b u) := by
  rcases u with ⟨st, txt, j⟩ | msg <;>
    simp only [handlerOffer, errorSurfaced] <;>
    split_ifs <;>
    simp [hasErrorField, errBody, errBodyD, upstreamText]

theorem surfaced_offerDirect (env : Env) (m : String) (b : ReqBody) (u : FetchResult) :
    errorSurfaced u (handlerOfferDirect env m b u) := by
  rcases u with ⟨st, txt, j⟩ | msg <;>
    simp only [handlerOfferDirect, errorSurfaced] <;>
    split_ifs <;>
    simp [hasErrorField, errBody, errBodyD, upstreamText]

theorem surfaced_offerLegacy (env : Env) (m : String) (b : ReqBody) (u : FetchResult) :
    errorSurfaced u (handlerOfferLegacy env m b u) := by
  rcases u with ⟨st, txt, j⟩ | msg <;>
    simp only [handlerOfferLegacy, errorSurfaced] <;>
    split_ifs <;>
    simp [hasErrorField, errBody, errBodyD, upstreamText]

/-- C9 counterexample: on outbound-call initiation with instructions
present, a failed config-token mint (upstream 503) is swallowed: the Plivo
call proceeds and the caller receives status 200 with a success body and no
error field. -/
theorem C9_counterexample :
    fetchOk 503 = false ∧
    (handlerPlivoCall ⟨some "k", some "https://b", some "pid", some "ptok"⟩ "POST"
        { instructions := some "Be brief" } "h.example" none
        (.resp 503 "overloaded" .null) (.ok "uuid1" "call queued")).resp
      = ⟨200, .json (.obj [("success", .bool true), ("call_uuid", .str "uuid1"),
          ("message", .str "call queued"),
          ("answer_url", .str "https://h.example/api/plivo/answer?")])⟩ ∧
    hasErrorField (handlerPlivoCall ⟨some "k", some "https://b", some "pid", some "ptok"⟩ "POST"
        { instructions := some "Be brief" } "h.example" none
        (.resp 503 "overloaded" .null) (.ok "uuid1" "call queued")).resp.body = false :=
  ⟨rfl, rfl, rfl⟩

/-- C9 amended: every relay endpoint surfaces every failure — each response
is a success, or carries a JSON error field, or is the upstream body
verbatim — but two exceptions hold: the Plivo answer endpoint reports
missing configuration as 500 with an XML comment body, and the
outbound-call endpoint swallows a failed config-token mint, proceeding to a
200 success response with no error field. -/
theorem C9_amended_error_surfacing :
    (∀ env m b u, errorSurfaced u (handlerEphemeralKey env m b u)) ∧
    (∀ env m u, errorSurfaced u (handlerIceServers env m u)) ∧
    (∀ env m b u, errorSurfaced u (handlerPlivoConfigure env m b u)) ∧
    (∀ env m b u, errorSurfaced u (handlerOffer env m b u)) ∧
    (∀ env m b u, errorSurfaced u (handlerOfferDirect env m b u)) ∧
    (∀ env m b u, errorSurfaced u (handlerOfferLegacy env m b u)) ∧
    (∀ m p, m = "GET" ∨ m = "POST" →
      handlerPlivoAnswer ⟨none, none, none, none⟩ m p
        = ⟨⟨500, .text "<!-- Configuration Error -->"⟩, []⟩) ∧
    (∀ (k bu pid ptok host : String) (xf : Option String) (b : ReqBody)
        (uuid message : String) (st : Nat) (txt : String) (j : Json),
      k ≠ "" → bu ≠ "" → pid ≠ "" → ptok ≠ "" →
      truthyStr b.instructions = true → fetchOk st = false →
      (handlerPlivoCall ⟨some k, some bu, some pid, some ptok⟩ "POST" b host xf
          (.resp st txt j) (.ok uuid message)).resp.status = 200 ∧
      hasErrorField (handlerPlivoCall ⟨some k, some bu, some pid, some ptok⟩ "POST" b host xf
          (.resp st txt j) (.ok uuid message)).resp.body = false) := by
  refine ⟨surfaced_ephemeral, surfaced_iceServers, surfaced_configure, surfaced_offer,
    surfaced_offerDirect, surfaced_offerLegacy, fun m p hm => ?_, ?_⟩
  · obtain hm | hm := hm <;> subst hm <;> simp [handlerPlivoAnswer, truthyStr]
  · intro k bu pid ptok host xf b uuid message st txt j hk hbu hpid hptok hins hst
    constructor <;>
      simp [handlerPlivoCall, plivoCallFinish, truthyStr_some, hk, hbu, hpid, hptok,
        hins, hst, hasErrorField]

/-- Witness for C9 at concrete inputs for each component. -/
theorem C9_witness :
    errorSurfaced (.fail "x") (handlerEphemeralKey ⟨none, none, none, none⟩ "POST" {} (.fail "x")) ∧
    handlerPlivoAnswer ⟨none, none, none, none⟩ "GET" {}
      = ⟨⟨500, .text "<!-- Configuration Error -->"⟩, []⟩ ∧
    (handlerPlivoCall ⟨some "k", some "https://b", some "pid", some "ptok"⟩ "POST"
        { instructions := some "Be brief" } "h.example" none
        (.resp 503 "overloaded" .null) (.ok "uuid1" "call queued")).resp.status = 200 :=
  ⟨C9_amended_error_surfacing.1 ⟨none, none, none, none⟩ "POST" {} (.fail "x"),
   C9_amended_error_surfacing.2.2.2.2.2.2.1 "GET" {} (Or.inl rfl),
   (C9_amended_error_surfacing.2.2.2.2.2.2.2 "k" "https://b" "pid" "ptok" "h.example" none
      { instructions := some "Be brief" } "uuid1" "call queued" 503 "overloaded" .null
      (by decide) (by decide) (by decide) (by decide) (by decide) (by decide)).1⟩
